import Mathlib

/-
Verification model of DataDrift (src/main.py), a PyQt SCP/SFTP client.
The `SCPClientApp` methods are embedded as pure state-transition functions
over an explicit application state; GUI side effects (message boxes, the
status bar, stdout prints) and SFTP/SCP protocol calls are recorded as an
event trace so that which channel reports a failure is observable.
-/

namespace DataDrift

/-- Models os.path.join (POSIX) for the two-argument calls used by the
application: an absolute second component replaces the first; otherwise the
components are joined with a single slash unless the first component is
empty or already ends in a slash. -/
def joinPath (a b : String) : String :=
  if b.data.head? == some ('/') then b
  else if a.data.isEmpty || (a.data.getLast? == some ('/')) then a ++ b
  else a ++ ("/") ++ b

/-- One entry of the modelled remote filesystem: its parent directory, its
name, its POSIX st_mode bits, and its content bytes. -/
structure REntry where
  dir : String
  name : String
  mode : Nat
  content : List Nat
deriving DecidableEq

/-- Absolute path of an entry, derived from its directory and name the same
way the application builds paths (os.path.join). -/
def REntry.path (e : REntry) : String := joinPath e.dir e.name

/-- The remote filesystem visible through the SFTP handle. -/
structure RemoteFS where
  entries : List REntry
deriving DecidableEq

/-- Models sftp.stat: the st_mode of the entry at path `p`, or `none` for
the IOError raised when no entry exists at `p`. -/
def RemoteFS.stat (fs : RemoteFS) (p : String) : Option Nat :=
  (fs.entries.find? (fun e => e.path == p)).map (fun e => e.mode)

/-- Content bytes of the file at path `p`, or `none` for the IOError raised
when no entry exists at `p` (models opening with sftp.file and reading). -/
def RemoteFS.content (fs : RemoteFS) (p : String) : Option (List Nat) :=
  (fs.entries.find? (fun e => e.path == p)).map (fun e => e.content)

/-- Models sftp.listdir: the names of the entries whose parent directory is
`d`. -/
def RemoteFS.listdir (fs : RemoteFS) (d : String) : List String :=
  (fs.entries.filter (fun e => e.dir == d)).map (fun e => e.name)

/-- Models sftp.remove: deletes the entry at path `p`; `none` models the
IOError raised when no entry exists at `p`. -/
def RemoteFS.remove (fs : RemoteFS) (p : String) : Option RemoteFS :=
  if fs.entries.any (fun e => e.path == p) then
    some ⟨fs.entries.filter (fun e => ! (e.path == p))⟩
  else none

/-- Models the remote effect of sftp.file(path, mode w) followed by a write:
the entry named `name` under `dir` ends up holding exactly `data` (the file
is created with a regular-file mode when absent). -/
def RemoteFS.writeFile (fs : RemoteFS) (dir name : String) (data : List Nat) : RemoteFS :=
  if fs.entries.any (fun e => e.path == joinPath dir name) then
    ⟨fs.entries.map (fun e =>
      if e.path = joinPath dir name then { e with content := data } else e)⟩
  else
    ⟨fs.entries ++ [⟨dir, name, 33188, data⟩]⟩

/-- Return value of SCPClientApp.is_directory, which either returns the
Python literal False (its IOError branch) or the integer
st_mode AND 0o040000 (its normal branch); the caller only ever tests its
truthiness. -/
inductive PyBoolInt where
  | pyFalse
  | pyInt (n : Nat)
deriving DecidableEq

/-- Python truthiness of an is_directory result: False is falsy and an
integer is truthy exactly when nonzero. -/
def PyBoolInt.truthy : PyBoolInt → Bool
  | .pyFalse => false
  | .pyInt n => n != 0

/-- Observable effects of one operation: GUI dialogs, the status bar,
stdout prints, and SFTP/SCP protocol calls against the transport. -/
inductive Event where
  | warningBox (title msg : String)
  | infoBox (title msg : String)
  | criticalBox (title msg : String)
  | printLog (msg : String)
  | statusMsg (msg : String)
  | transportCall (op path : String)
deriving DecidableEq

/-- Mutable state of SCPClientApp that the modelled operations touch:
the current remote path, the ssh/sftp/scp handles (None or a transport
identifier), the RemoteFileModel data backing the remote tree, and the
text-editor widget state. Editor text is kept as a list of code points. -/
structure AppState where
  remote_path : String
  ssh : Option Nat
  sftp : Option Nat
  scp : Option Nat
  remote_model : List String
  editor_text : List Nat
  editor_visible : Bool
  status : String
deriving DecidableEq

/-- Models SCPClientApp.is_directory: stats the path through the sftp
handle and returns st_mode AND 0o040000, with IOError mapped to False.
The outer `none` models the uncaught AttributeError raised when
self.sftp is None. -/
def is_directory (sftp : Option Nat) (fs : RemoteFS) (path : String) :
    Option PyBoolInt :=
  match sftp with
  | none => none
  | some _ =>
    match fs.stat path with
    | none => some .pyFalse
    | some m => some (.pyInt (m &&& 16384))

/-- Models SCPClientApp.load_remote_directory: with either handle None it
only shows a warning; otherwise it lists the current remote path and
replaces the remote model (populate_remote_file_tree) and the status bar.
The modelled listdir is total, so the except branch of the source (critical
box plus print) is unreachable in the model. -/
def load_remote_directory (fs : RemoteFS) (s : AppState) : AppState × List Event :=
  match s.ssh, s.sftp with
  | some _, some _ =>
    let files := fs.listdir s.remote_path
    ({ s with remote_model := files,
              status := ("Loaded remote directory: ") ++ s.remote_path },
     [Event.transportCall ("sftp.listdir") s.remote_path,
      Event.statusMsg (("Loaded remote directory: ") ++ s.remote_path)])
  | _, _ =>
    (s, [Event.warningBox ("No Connection")
          ("You must be connected to a server to refresh the remote directory.")])

/-- Models SCPClientApp.remote_directory_navigate on the selected entry
name: joins it to the current remote path, tests is_directory, and either
navigates (updating remote_path and reloading the listing) or only prints
that the path is not a directory. The outer `none` is the uncaught
AttributeError from is_directory when self.sftp is None. -/
def remote_directory_navigate (fs : RemoteFS) (s : AppState) (selected : String) :
    Option (AppState × List Event) :=
  let new_path := joinPath s.remote_path selected
  match is_directory s.sftp fs new_path with
  | none => none
  | some r =>
    if r.truthy then
      let s1 := { s with remote_path := new_path }
      let p := load_remote_directory fs s1
      some (p.1, Event.transportCall ("sftp.stat") new_path :: p.2)
    else
      some (s, [Event.transportCall ("sftp.stat") new_path,
                Event.printLog (new_path ++ (" is not a directory."))])

/-- Models SCPClientApp.disconnect_ssh: with a live ssh handle it closes it
and clears the ssh and sftp handles (the scp handle is left as is, exactly
as in the source); with no handle it only shows a warning. The modelled
close succeeds, so the except branch of the source is unreachable. -/
def disconnect_ssh (s : AppState) : AppState × List Event :=
  match s.ssh with
  | some _ =>
    ({ s with ssh := none, sftp := none, status := ("Disconnected") },
     [Event.transportCall ("ssh.close") (""),
      Event.statusMsg ("Disconnected"),
      Event.infoBox ("Disconnected") ("Disconnected from the server.")])
  | none =>
    (s, [Event.warningBox ("No Connection") ("No active connection to disconnect.")])

/-- Models SCPClientApp.upload_file on the selected local path: with either
handle None it only shows a warning; otherwise it runs scp.put on the
selected local file (modelled as a transport call on the success path) and
reports success. -/
def upload_file (s : AppState) (localPath : String) : AppState × List Event :=
  match s.ssh, s.sftp with
  | some _, some _ =>
    (s, [Event.transportCall ("scp.put") localPath,
         Event.infoBox ("Upload Success")
           (("Uploaded ") ++ localPath ++ (" to remote server."))])
  | _, _ =>
    (s, [Event.warningBox ("No Connection")
          ("You must be connected to a server to upload files.")])

/-- Models SCPClientApp.download_file on the selected remote entry name and
the directory chosen in the dialog (`none` when the dialog is cancelled):
with either handle None it only shows a warning; otherwise it runs scp.get
(modelled as a transport call on the success path) and reports success. -/
def download_file (s : AppState) (selected : String) (localDir : Option String) :
    AppState × List Event :=
  match s.ssh, s.sftp with
  | some _, some _ =>
    let p := joinPath s.remote_path selected
    match localDir with
    | some d =>
      (s, [Event.transportCall ("scp.get") p,
           Event.infoBox ("Download Success")
             (("Downloaded ") ++ p ++ (" to ") ++ d ++ ("."))])
    | none => (s, [])
  | _, _ =>
    (s, [Event.warningBox ("No Connection")
          ("You must be connected to a server to download files.")])

/-- One step of strict UTF-8 decoding, as performed by Python
bytes.decode(): from a first byte `b` and the remaining bytes, the decoded
code point and the bytes left over, or `none` on a malformed sequence
(stray continuation byte, overlong encoding, surrogate, code point above
0x10FFFF, or truncated sequence). -/
def utf8Step (b : Nat) (bs : List Nat) : Option (Nat × List Nat) :=
  if b < 128 then some (b, bs)
  else if b < 194 then none
  else if b < 224 then
    match bs with
    | c :: bs2 =>
      if 128 ≤ c ∧ c ≤ 191 then some ((b - 192) * 64 + (c - 128), bs2) else none
    | [] => none
  else if b < 240 then
    match bs with
    | c :: d :: bs2 =>
      if (128 ≤ c ∧ c ≤ 191) ∧ (128 ≤ d ∧ d ≤ 191)
          ∧ (b ≠ 224 ∨ 160 ≤ c) ∧ (b ≠ 237 ∨ c ≤ 159) then
        some ((b - 224) * 4096 + (c - 128) * 64 + (d - 128), bs2)
      else none
    | _ => none
  else if b < 245 then
    match bs with
    | c :: d :: e :: bs2 =>
      if (128 ≤ c ∧ c ≤ 191) ∧ (128 ≤ d ∧ d ≤ 191) ∧ (128 ≤ e ∧ e ≤ 191)
          ∧ (b ≠ 240 ∨ 144 ≤ c) ∧ (b ≠ 244 ∨ c ≤ 143) then
        some ((b - 240) * 262144 + (c - 128) * 4096 + (d - 128) * 64 + (e - 128), bs2)
      else none
    | _ => none
  else none

/-- Iterated strict UTF-8 decoding with an explicit step budget; each step
consumes at least one byte, so a budget of the byte count is always
enough and the budget-exhausted branch is unreachable from utf8Decode. -/
def utf8DecodeAux : Nat → List Nat → Option (List Nat)
  | _, [] => some []
  | 0, _ :: _ => none
  | Nat.succ fuel, b :: bs =>
    match utf8Step b bs with
    | none => none
    | some p => (utf8DecodeAux fuel p.2).map (fun t => p.1 :: t)

/-- Strict UTF-8 decoding of a byte list into code points, as performed by
Python bytes.decode(); `none` models UnicodeDecodeError. -/
def utf8Decode (bs : List Nat) : Option (List Nat) := utf8DecodeAux bs.length bs

/-- UTF-8 encoding of one code point, as performed by Python str.encode(). -/
def utf8EncodeChar (c : Nat) : List Nat :=
  if c < 128 then [c]
  else if c < 2048 then [192 + c / 64, 128 + c % 64]
  else if c < 65536 then [224 + c / 4096, 128 + (c / 64) % 64, 128 + c % 64]
  else [240 + c / 262144, 128 + (c / 4096) % 64, 128 + (c / 64) % 64, 128 + c % 64]

/-- UTF-8 encoding of a list of code points. -/
def utf8Encode (cs : List Nat) : List Nat :=
  (cs.map utf8EncodeChar).flatten

/-- Models SCPClientApp.open_file on the selected remote entry name: with
either handle None it only shows a warning; otherwise it reads the whole
remote file and decodes it, filling the text editor on success; an IOError
on open, or a UnicodeDecodeError, is caught and reported in a critical box
with the editor left untouched. -/
def open_file (fs : RemoteFS) (s : AppState) (selected : String) :
    AppState × List Event :=
  match s.ssh, s.sftp with
  | some _, some _ =>
    let p := joinPath s.remote_path selected
    match fs.content p with
    | none =>
      (s, [Event.transportCall ("sftp.open_r") p,
           Event.criticalBox ("Error") (("Error opening file: ") ++ p)])
    | some bytes =>
      match utf8Decode bytes with
      | none =>
        (s, [Event.transportCall ("sftp.open_r") p,
             Event.criticalBox ("Error")
               ("Error opening file: UnicodeDecodeError")])
      | some cps =>
        ({ s with editor_text := cps, editor_visible := true,
                  status := ("Opened file: ") ++ selected },
         [Event.transportCall ("sftp.open_r") p,
          Event.statusMsg (("Opened file: ") ++ selected)])
  | _, _ =>
    (s, [Event.warningBox ("No Connection")
          ("You must be connected to a server to open files.")])

/-- Models SCPClientApp.save_file on the selected remote entry name: with
either handle None it only shows a warning; otherwise it opens the remote
path with mode w — which truncates the file in place — and streams the
encoded editor content into it. `k` is the number of bytes the transport
delivers before failing (`k` at least the data length means no failure), so
the file ends up holding exactly the first `k` bytes of the new content; a
mid-write failure is caught and reported in a critical box. -/
def save_file (fs : RemoteFS) (s : AppState) (selected : String) (k : Nat) :
    RemoteFS × AppState × List Event :=
  match s.ssh, s.sftp with
  | some _, some _ =>
    let p := joinPath s.remote_path selected
    let data := utf8Encode s.editor_text
    let fs2 := fs.writeFile s.remote_path selected (data.take k)
    if data.length ≤ k then
      (fs2, s, [Event.transportCall ("sftp.open_w") p,
                Event.infoBox ("Save Success") (("Saved changes to ") ++ selected)])
    else
      (fs2, s, [Event.transportCall ("sftp.open_w") p,
                Event.criticalBox ("Error") (("Error saving file: ") ++ p)])
  | _, _ =>
    (fs, s, [Event.warningBox ("No Connection")
              ("You must be connected to a server to save files.")])

/-- Models SCPClientApp.delete_file on the selected remote entry name: with
either handle None it only shows a warning; otherwise it removes the file
and, on success, immediately reloads the current remote directory before
reporting success; an IOError from remove is caught and reported in a
critical box. -/
def delete_file (fs : RemoteFS) (s : AppState) (selected : String) :
    RemoteFS × AppState × List Event :=
  match s.ssh, s.sftp with
  | some _, some _ =>
    let p := joinPath s.remote_path selected
    match fs.remove p with
    | some fs2 =>
      let r := load_remote_directory fs2 s
      (fs2, r.1,
       Event.transportCall ("sftp.remove") p ::
         r.2 ++ [Event.infoBox ("Delete Success") (("Deleted ") ++ selected)])
    | none =>
      (fs, s, [Event.transportCall ("sftp.remove") p,
               Event.criticalBox ("Error") (("Error deleting file: ") ++ p)])
  | _, _ =>
    (fs, s, [Event.warningBox ("No Connection")
              ("You must be connected to a server to delete files.")])

/-- Models a PyQt QModelIndex as far as RemoteFileModel inspects it: its
validity flag and its row. -/
structure QModelIndex where
  valid : Bool
  row : Nat
deriving DecidableEq

/-- The invalid index QModelIndex(), which Qt uses as the root. -/
def QModelIndex.invalid : QModelIndex := ⟨false, 0⟩

/-- Models RemoteFileModel: a custom QAbstractItemModel whose only state is
the flat list of remote entry names. -/
structure RemoteFileModel where
  data : List String
deriving DecidableEq

/-- Models RemoteFileModel.rowCount: the length of the flat list at the
root, and 0 under any valid parent index. -/
def RemoteFileModel.rowCount (m : RemoteFileModel) (parent : QModelIndex) : Nat :=
  if parent.valid then 0 else m.data.length

/-- Models RemoteFileModel.columnCount: always 1. -/
def RemoteFileModel.columnCount (_m : RemoteFileModel) (_parent : QModelIndex) : Nat := 1

/-- Models RemoteFileModel.data for the display role: the name at the row
of a valid index, None otherwise. -/
def RemoteFileModel.display (m : RemoteFileModel) (index : QModelIndex) : Option String :=
  if index.valid then m.data.get? index.row else none

/-- Models RemoteFileModel.index: a valid index for a row within the flat
list under the root, the invalid index otherwise. -/
def RemoteFileModel.index (m : RemoteFileModel) (row col : Nat) (parent : QModelIndex) :
    QModelIndex :=
  if ! parent.valid ∧ row < m.data.length ∧ col = 0 then ⟨true, row⟩
  else QModelIndex.invalid

/-- Models RemoteFileModel.parent: unconditionally the invalid index. -/
def RemoteFileModel.parent (_m : RemoteFileModel) (_index : QModelIndex) : QModelIndex :=
  QModelIndex.invalid

/-- Connection-lifecycle state: the application state together with a
ledger of the transports created so far — `live` holds the identifiers of
transports that were opened and never closed, and `nextId` is the
identifier the next paramiko connection would receive. -/
structure ConnState where
  app : AppState
  live : List Nat
  nextId : Nat
deriving DecidableEq

/-- Models SCPClientApp._connect_ssh_thread: a fresh SSHClient is created
and connected, and the ssh, sftp and scp handles are overwritten with
handles onto the fresh transport. Nothing closes a previously held
transport, so a previously live transport stays in the ledger. -/
def connect_ssh_thread (c : ConnState) : ConnState :=
  { app := { c.app with ssh := some c.nextId, sftp := some c.nextId,
                        scp := some c.nextId },
    live := c.nextId :: c.live,
    nextId := c.nextId + 1 }

/-- Models SCPClientApp.connect_ssh on the success path, with the three
dialog inputs as parameters: when host, username and password are all
nonempty it runs the connection thread, reports success, and loads the
remote directory; with any empty input it does nothing. The
connection-failure branch (critical box) is not modelled. -/
def connect_ssh (fs : RemoteFS) (host username password : String) (c : ConnState) :
    ConnState × List Event :=
  if host == ("") || username == ("") || password == ("") then (c, [])
  else
    let c1 := connect_ssh_thread c
    let r := load_remote_directory fs c1.app
    ({ c1 with app := r.1 },
     Event.infoBox ("Connection Success") ("Connected to the server successfully!")
       :: Event.statusMsg (("Connected to ") ++ host) :: r.2)

/-- Models disconnect_ssh lifted to the connection ledger: closing the ssh
handle removes its transport from the live ledger. -/
def disconnect_ssh_conn (c : ConnState) : ConnState × List Event :=
  let r := disconnect_ssh c.app
  match c.app.ssh with
  | some t => ({ app := r.1, live := c.live.filter (fun x => ! (x == t)),
                 nextId := c.nextId }, r.2)
  | none => ({ c with app := r.1 }, r.2)

/-- An application state holding a live connection, used as a concrete
test state. -/
def appConnected : AppState :=
  { remote_path := ("."), ssh := some 0, sftp := some 0, scp := some 0,
    remote_model := [], editor_text := [], editor_visible := false,
    status := ("") }

/-- An application state with no connection, used as a concrete test
state. -/
def appDisconnected : AppState :=
  { remote_path := ("."), ssh := none, sftp := none, scp := none,
    remote_model := [], editor_text := [], editor_visible := false,
    status := ("") }

/-- The initial connection-lifecycle state: no connection ever made. -/
def connInit : ConnState := { app := appDisconnected, live := [], nextId := 0 }

/-- A remote filesystem holding a single regular file notes.txt (st_mode
0o100644) in the starting directory. -/
def fsNotes : RemoteFS := ⟨[⟨("."), ("notes.txt"), 33188, [104, 105]⟩]⟩

/-- A remote filesystem holding a single regular file doc.txt with content
bytes 1, 2, 3. -/
def fsDoc : RemoteFS := ⟨[⟨("."), ("doc.txt"), 33188, [1, 2, 3]⟩]⟩

/-- A large all-ASCII content: 1048576 copies of byte 65. -/
def bigContent : List Nat := List.replicate 1048576 65

/-- A remote filesystem holding a single 1 MiB regular file bigfile. -/
def fsBig : RemoteFS := ⟨[⟨("."), ("bigfile"), 33188, bigContent⟩]⟩

/-- A remote filesystem holding a single file bin.dat whose content is not
valid UTF-8 (a lone 0xFF byte). -/
def fsBin : RemoteFS := ⟨[⟨("."), ("bin.dat"), 33188, [255]⟩]⟩

/-- A connected application state whose text editor holds the two code
points A and B. -/
def sAB : AppState := { appConnected with editor_text := [65, 66] }

/-- The connection-lifecycle state after one successful connect from the
initial state. -/
def connOnce : ConnState := (connect_ssh fsNotes ("h") ("u") ("pw") connInit).1

/-- Helper: load_remote_directory never touches the handles or the current
remote path. -/
theorem load_preserves_handles (fs : RemoteFS) (s : AppState) :
    (load_remote_directory fs s).1.ssh = s.ssh
    ∧ (load_remote_directory fs s).1.sftp = s.sftp
    ∧ (load_remote_directory fs s).1.scp = s.scp
    ∧ (load_remote_directory fs s).1.remote_path = s.remote_path := by
  cases hs : s.ssh <;> cases ht : s.sftp <;> simp [load_remote_directory, hs, ht]

/-- Helper: decoding an all-ASCII byte list succeeds and returns it
unchanged, for any sufficient step budget. -/
theorem utf8DecodeAux_replicate_65 (fuel n : Nat) (h : n ≤ fuel) :
    utf8DecodeAux fuel (List.replicate n 65) = some (List.replicate n 65) := by
  induction fuel generalizing n with
  | zero =>
    interval_cases n
    rfl
  | succ fuel ih =>
    cases n with
    | zero => rfl
    | succ n =>
      rw [List.replicate_succ]
      show (utf8DecodeAux fuel (List.replicate n 65)).map (fun t => 65 :: t) = _
      rw [ih n (by omega)]
      rfl

/-- Helper: decoding an all-ASCII byte list of any length succeeds and
returns it unchanged. -/
theorem utf8Decode_replicate_65 (n : Nat) :
    utf8Decode (List.replicate n 65) = some (List.replicate n 65) := by
  rw [utf8Decode, List.length_replicate]
  exact utf8DecodeAux_replicate_65 n n le_rfl

/-- C6: disconnect_ssh is idempotent on the application state, is safe to
call with no connection (state untouched, only a warning dialog), and
never raises or reports an error to the caller. -/
theorem disconnect_idempotent_safe (s : AppState) :
    (disconnect_ssh (disconnect_ssh s).1).1 = (disconnect_ssh s).1
    ∧ (s.ssh = none →
        (disconnect_ssh s).1 = s
        ∧ (disconnect_ssh s).2
            = [Event.warningBox ("No Connection")
                ("No active connection to disconnect.")])
    ∧ ∀ t m, Event.criticalBox t m ∉ (disconnect_ssh s).2 := by
  cases hs : s.ssh <;> simp [disconnect_ssh, hs]

/-- Witness for C6 at a concrete disconnected state. -/
theorem disconnect_idempotent_safe_witness :
    (disconnect_ssh (disconnect_ssh appDisconnected).1).1
        = (disconnect_ssh appDisconnected).1
    ∧ ((disconnect_ssh appDisconnected).1 = appDisconnected
        ∧ (disconnect_ssh appDisconnected).2
            = [Event.warningBox ("No Connection")
                ("No active connection to disconnect.")])
    ∧ ∀ t m, Event.criticalBox t m ∉ (disconnect_ssh appDisconnected).2 := by
  have h := disconnect_idempotent_safe appDisconnected
  exact ⟨h.1, h.2.1 rfl, h.2.2⟩

/-- C7: is_directory stats the path and tests the raw mode bit 0o040000,
mapping IOError to False, so its result is falsy both when the path does
not exist (stat raises) and when the path exists with the directory bit
clear; the caller cannot tell the two cases apart. -/
theorem is_directory_conflates_not_found (fs : RemoteFS) (p : String) (h : Nat)
    (hcase : fs.stat p = none ∨ ∃ m, fs.stat p = some m ∧ m &&& 0o040000 = 0) :
    ∃ pb, is_directory (some h) fs p = some pb ∧ pb.truthy = false := by
  rcases hcase with hn | ⟨m, hm, hbit⟩
  · exact ⟨.pyFalse, by simp [is_directory, hn], rfl⟩
  · exact ⟨.pyInt 0, by simp [is_directory, hm, hbit], rfl⟩

/-- Witness for C7: a path absent from a concrete filesystem. -/
theorem is_directory_conflates_not_found_witness :
    ∃ pb, is_directory (some 0) fsNotes ("./nope") = some pb
      ∧ pb.truthy = false :=
  is_directory_conflates_not_found fsNotes ("./nope") 0 (Or.inl (by decide))

/-- C8: RemoteFileModel is a flat list: parent is unconditionally the
invalid root index, and rowCount under any valid parent index is 0, so no
listed entry reports children or a parent. -/
theorem remote_model_flat_no_parent (m : RemoteFileModel) (idx p : QModelIndex)
    (hp : p.valid = true) :
    m.parent idx = QModelIndex.invalid ∧ m.rowCount p = 0 := by
  simp [RemoteFileModel.parent, RemoteFileModel.rowCount, hp]

/-- Witness for C8 at a concrete two-entry model. -/
theorem remote_model_flat_no_parent_witness :
    (RemoteFileModel.mk [("a"), ("b")]).parent ⟨true, 0⟩ = QModelIndex.invalid
    ∧ (RemoteFileModel.mk [("a"), ("b")]).rowCount ⟨true, 1⟩ = 0 :=
  remote_model_flat_no_parent (RemoteFileModel.mk [("a"), ("b")]) ⟨true, 0⟩ ⟨true, 1⟩ rfl

/-- C2 counterexample: navigating onto a concrete regular file does not
raise any error observable by the caller — the result is a normal return
whose only failure report is a print to stdout (no dialog, no exception),
contradicting the claim that navigate fails with NotADirectoryError. -/
theorem navigate_file_only_print_log :
    remote_directory_navigate fsNotes appConnected ("notes.txt")
      = some (appConnected,
          [Event.transportCall ("sftp.stat") ("./notes.txt"),
           Event.printLog ("./notes.txt is not a directory.")]) := by
  decide

/-- C2 amended: for every path that exists and is a regular file (directory
bit clear), navigation leaves the application state unchanged — it never
lists a different directory — but the failure is reported only through a
print to stdout; no error reaches the caller. -/
theorem navigate_regular_file_print_only
    (fs : RemoteFS) (s : AppState) (sel : String) (h m : Nat)
    (hs : s.sftp = some h)
    (hm : fs.stat (joinPath s.remote_path sel) = some m)
    (hbit : m &&& 0o040000 = 0) :
    remote_directory_navigate fs s sel
      = some (s,
          [Event.transportCall ("sftp.stat") (joinPath s.remote_path sel),
           Event.printLog (joinPath s.remote_path sel ++ (" is not a directory."))]) := by
  simp [remote_directory_navigate, is_directory, hs, hm, hbit, PyBoolInt.truthy]

/-- Witness for the amended C2 at a concrete filesystem and state. -/
theorem navigate_regular_file_print_only_witness :
    remote_directory_navigate fsNotes appConnected ("notes.txt")
      = some (appConnected,
          [Event.transportCall ("sftp.stat")
             (joinPath appConnected.remote_path ("notes.txt")),
           Event.printLog (joinPath appConnected.remote_path ("notes.txt")
             ++ (" is not a directory."))]) :=
  navigate_regular_file_print_only fsNotes appConnected ("notes.txt") 0 33188
    rfl (by decide) (by decide)

/-- C10: navigation changes remote_path only for directories — when
is_directory is falsy the whole state is unchanged, and when it is truthy
remote_path becomes exactly os.path.join of the previous remote_path and
the selected name while the ssh, sftp and scp handles are untouched. -/
theorem navigate_frame_conditions
    (fs : RemoteFS) (s : AppState) (sel : String) (h : Nat) (pb : PyBoolInt)
    (hs : s.sftp = some h)
    (hd : is_directory s.sftp fs (joinPath s.remote_path sel) = some pb) :
    ∃ s2 evs, remote_directory_navigate fs s sel = some (s2, evs)
      ∧ (pb.truthy = false → s2 = s)
      ∧ (pb.truthy = true →
          s2.remote_path = joinPath s.remote_path sel
          ∧ s2.ssh = s.ssh ∧ s2.sftp = s.sftp ∧ s2.scp = s.scp) := by
  cases htr : pb.truthy with
  | false =>
    have hnav : remote_directory_navigate fs s sel
        = some (s, [Event.transportCall ("sftp.stat") (joinPath s.remote_path sel),
                    Event.printLog (joinPath s.remote_path sel
                      ++ (" is not a directory."))]) := by
      simp [remote_directory_navigate, hd, htr]
    refine ⟨s, _, hnav, ?_, ?_⟩
    · intro _
      rfl
    · intro hc
      exact absurd hc (by simp)
  | true =>
    have hnav : remote_directory_navigate fs s sel
        = some ((load_remote_directory fs
              { s with remote_path := joinPath s.remote_path sel }).1,
            Event.transportCall ("sftp.stat") (joinPath s.remote_path sel)
              :: (load_remote_directory fs
                   { s with remote_path := joinPath s.remote_path sel }).2) := by
      simp [remote_directory_navigate, hd, htr]
    have hp := load_preserves_handles fs
      { s with remote_path := joinPath s.remote_path sel }
    refine ⟨_, _, hnav, ?_, ?_⟩
    · intro hc
      exact absurd hc (by simp)
    · intro _
      exact ⟨by rw [hp.2.2.2], by rw [hp.1], by rw [hp.2.1], by rw [hp.2.2.1]⟩

/-- Witness for C10 at a concrete filesystem and state, on a regular
file. -/
theorem navigate_frame_conditions_witness :
    ∃ s2 evs,
      remote_directory_navigate fsNotes appConnected ("notes.txt") = some (s2, evs)
      ∧ ((PyBoolInt.pyInt 0).truthy = false → s2 = appConnected)
      ∧ ((PyBoolInt.pyInt 0).truthy = true →
          s2.remote_path = joinPath appConnected.remote_path ("notes.txt")
          ∧ s2.ssh = appConnected.ssh ∧ s2.sftp = appConnected.sftp
          ∧ s2.scp = appConnected.scp) :=
  navigate_frame_conditions fsNotes appConnected ("notes.txt") 0
    (PyBoolInt.pyInt 0) rfl (by decide)

/-- C9: with either handle None, each remote operation — refresh listing,
upload, download, open, save, delete — performs no transport call and only
shows a warning dialog, leaving the whole application state (remote_path,
remote model, editor) and the remote filesystem unchanged. -/
theorem ops_guard_disconnected_unchanged
    (fs : RemoteFS) (s : AppState) (sel localPath : String)
    (localDir : Option String) (k : Nat)
    (hdis : s.ssh = none ∨ s.sftp = none) :
    load_remote_directory fs s
        = (s, [Event.warningBox ("No Connection")
            ("You must be connected to a server to refresh the remote directory.")])
    ∧ upload_file s localPath
        = (s, [Event.warningBox ("No Connection")
            ("You must be connected to a server to upload files.")])
    ∧ download_file s sel localDir
        = (s, [Event.warningBox ("No Connection")
            ("You must be connected to a server to download files.")])
    ∧ open_file fs s sel
        = (s, [Event.warningBox ("No Connection")
            ("You must be connected to a server to open files.")])
    ∧ save_file fs s sel k
        = (fs, s, [Event.warningBox ("No Connection")
            ("You must be connected to a server to save files.")])
    ∧ delete_file fs s sel
        = (fs, s, [Event.warningBox ("No Connection")
            ("You must be connected to a server to delete files.")]) := by
  cases hssh : s.ssh <;> cases hsftp : s.sftp <;>
    simp_all [load_remote_directory, upload_file, download_file, open_file,
      save_file, delete_file]

/-- Witness for C9 at a concrete disconnected state. -/
theorem ops_guard_disconnected_unchanged_witness :
    load_remote_directory fsNotes appDisconnected
        = (appDisconnected, [Event.warningBox ("No Connection")
            ("You must be connected to a server to refresh the remote directory.")])
    ∧ upload_file appDisconnected ("/tmp/a.txt")
        = (appDisconnected, [Event.warningBox ("No Connection")
            ("You must be connected to a server to upload files.")])
    ∧ download_file appDisconnected ("notes.txt") none
        = (appDisconnected, [Event.warningBox ("No Connection")
            ("You must be connected to a server to download files.")])
    ∧ open_file fsNotes appDisconnected ("notes.txt")
        = (appDisconnected, [Event.warningBox ("No Connection")
            ("You must be connected to a server to open files.")])
    ∧ save_file fsNotes appDisconnected ("notes.txt") 0
        = (fsNotes, appDisconnected, [Event.warningBox ("No Connection")
            ("You must be connected to a server to save files.")])
    ∧ delete_file fsNotes appDisconnected ("notes.txt")
        = (fsNotes, appDisconnected, [Event.warningBox ("No Connection")
            ("You must be connected to a server to delete files.")]) :=
  ops_guard_disconnected_unchanged fsNotes appDisconnected ("notes.txt")
    ("/tmp/a.txt") none 0 (Or.inl rfl)

/-- Helper: after removing the file joined from directory `d` and name
`sel`, a listing of `d` no longer contains `sel`. -/
theorem not_mem_listdir_remove (fs fs2 : RemoteFS) (d sel : String)
    (hrm : fs.remove (joinPath d sel) = some fs2) :
    sel ∉ fs2.listdir d := by
  unfold RemoteFS.remove at hrm
  split at hrm
  · injection hrm with hrm
    subst hrm
    intro hmem
    unfold RemoteFS.listdir at hmem
    simp only [List.mem_map, List.mem_filter] at hmem
    obtain ⟨e, ⟨⟨he_fs, he_keep⟩, he_dir⟩, he_name⟩ := hmem
    have hne : (e.path == joinPath d sel) = false := by
      simpa using he_keep
    have hdir : e.dir = d := by simpa using he_dir
    have hpath : e.path = joinPath d sel := by
      rw [REntry.path, hdir, he_name]
    rw [hpath] at hne
    simp at hne
  · exact absurd hrm (by simp)

/-- C5: a successful delete is automatically followed by a reload of the
current directory listing, and the reloaded remote model never contains
the deleted entry. -/
theorem delete_refreshes_listing_excludes_entry
    (fs fs2 : RemoteFS) (s : AppState) (sel : String) (h1 h2 : Nat)
    (hssh : s.ssh = some h1) (hsftp : s.sftp = some h2)
    (hrm : fs.remove (joinPath s.remote_path sel) = some fs2) :
    (delete_file fs s sel).2.1.remote_model = fs2.listdir s.remote_path
    ∧ sel ∉ (delete_file fs s sel).2.1.remote_model := by
  have hdel : delete_file fs s sel
      = (fs2, (load_remote_directory fs2 s).1,
         Event.transportCall ("sftp.remove") (joinPath s.remote_path sel)
           :: (load_remote_directory fs2 s).2
           ++ [Event.infoBox ("Delete Success") (("Deleted ") ++ sel)]) := by
    simp [delete_file, hssh, hsftp, hrm]
  have hload : (load_remote_directory fs2 s).1.remote_model
      = fs2.listdir s.remote_path := by
    simp [load_remote_directory, hssh, hsftp]
  constructor
  · rw [hdel]
    exact hload
  · rw [hdel]
    show sel ∉ (load_remote_directory fs2 s).1.remote_model
    rw [hload]
    exact not_mem_listdir_remove fs fs2 s.remote_path sel hrm

/-- Witness for C5: deleting the only file of a concrete directory. -/
theorem delete_refreshes_listing_excludes_entry_witness :
    (delete_file fsNotes appConnected ("notes.txt")).2.1.remote_model
        = RemoteFS.listdir ⟨[]⟩ appConnected.remote_path
    ∧ ("notes.txt") ∉ (delete_file fsNotes appConnected ("notes.txt")).2.1.remote_model :=
  delete_refreshes_listing_excludes_entry fsNotes ⟨[]⟩ appConnected ("notes.txt")
    0 0 rfl rfl (by decide)

/-- Helper: finding an entry by its path in a list where the entry at that
path had its content replaced yields the replacement content. -/
theorem find_content_map (l : List REntry) (p : String) (data : List Nat)
    (hany : l.any (fun e => e.path == p) = true) :
    ((l.map (fun e => if e.path = p then { e with content := data } else e)).find?
        (fun e => e.path == p)).map (fun e => e.content) = some data := by
  induction l with
  | nil => simp at hany
  | cons e l ih =>
    rw [List.map_cons]
    by_cases he : e.path = p
    · have hbu : ((fun e2 : REntry => e2.path == p)
          ({ e with content := data } : REntry)) = true := by
        show (({ e with content := data } : REntry).path == p) = true
        have hpath : ({ e with content := data } : REntry).path = e.path := rfl
        rw [hpath, he]
        exact beq_self_eq_true p
      rw [if_pos he,
        @List.find?_cons_of_pos REntry (fun e2 => e2.path == p)
          ({ e with content := data }) _ hbu]
      rfl
    · have hbn : ¬ ((fun e2 : REntry => e2.path == p) e = true) := by simpa using he
      rw [if_neg he,
        @List.find?_cons_of_neg REntry (fun e2 => e2.path == p) e _ hbn]
      refine ih ?_
      rcases List.any_eq_true.mp hany with ⟨x, hx, hbx⟩
      rcases List.mem_cons.mp hx with hxe | hx2
      · subst hxe
        exact absurd (by simpa using hbx) he
      · exact List.any_eq_true.mpr ⟨x, hx2, hbx⟩

/-- Helper: finding an entry by path in a list extended with a fresh entry
at that path, when no prior entry has the path, yields the fresh entry's
content. -/
theorem find_append_new (l : List REntry) (p : String) (x : REntry)
    (hl : ∀ e ∈ l, (e.path == p) = false) (hx : (x.path == p) = true) :
    (((l ++ [x]).find? (fun e => e.path == p)).map (fun e => e.content))
      = some x.content := by
  induction l with
  | nil => simp [List.find?_cons, hx]
  | cons e l ih =>
    have hb := hl e (List.mem_cons_self e l)
    simp only [List.cons_append, List.find?_cons, hb]
    exact ih (fun e2 he2 => hl e2 (List.mem_cons_of_mem _ he2))

/-- Helper: after writeFile, the content at the written path is exactly
the written data. -/
theorem writeFile_content (fs : RemoteFS) (d n : String) (data : List Nat) :
    (fs.writeFile d n data).content (joinPath d n) = some data := by
  unfold RemoteFS.writeFile RemoteFS.content
  split
  · next hany => exact find_content_map fs.entries (joinPath d n) data hany
  · next hany =>
    have hl : ∀ e ∈ fs.entries, (e.path == joinPath d n) = false := by
      intro e he
      cases hb : (e.path == joinPath d n) with
      | false => rfl
      | true => exact absurd (List.any_eq_true.mpr ⟨e, he, hb⟩) hany
    have hx : ((⟨d, n, 33188, data⟩ : REntry).path == joinPath d n) = true := by
      simp [REntry.path]
    simpa using find_append_new fs.entries (joinPath d n) ⟨d, n, 33188, data⟩ hl hx

/-- C3 counterexample: saving the two-character content AB over a remote
file previously holding bytes 1, 2, 3'. When the transport fails after one
byte, the file is observable holding [65] — neither the prior content nor
the full new content — and the failure is reported, contradicting the
atomicity claim. -/
theorem save_file_partial_write_observable :
    fsDoc.content (joinPath (".") ("doc.txt")) = some [1, 2, 3]
    ∧ utf8Encode sAB.editor_text = [65, 66]
    ∧ ((save_file fsDoc sAB ("doc.txt") 1).1).content (joinPath (".") ("doc.txt"))
        = some [65]
    ∧ (save_file fsDoc sAB ("doc.txt") 1).2.2
        = [Event.transportCall ("sftp.open_w") (joinPath (".") ("doc.txt")),
           Event.criticalBox ("Error")
             (("Error saving file: ") ++ joinPath (".") ("doc.txt"))]
    ∧ ([65] : List Nat) ≠ [1, 2, 3] ∧ ([65] : List Nat) ≠ [65, 66] := by
  decide

/-- C3 amended: save_file overwrites the remote file in place — the remote
path is opened in truncating write mode and ends up holding exactly the
first k transported bytes of the new content, a mid-write failure is
reported in a critical box leaving that partial prefix visible, and the
only transport path touched is the target path itself (no temporary file,
no rename). -/
theorem save_file_truncating_direct_write
    (fs : RemoteFS) (s : AppState) (sel : String) (k : Nat) (h1 h2 : Nat)
    (hssh : s.ssh = some h1) (hsftp : s.sftp = some h2) :
    ((save_file fs s sel k).1).content (joinPath s.remote_path sel)
        = some ((utf8Encode s.editor_text).take k)
    ∧ ((utf8Encode s.editor_text).length ≤ k →
        (save_file fs s sel k).2.2
          = [Event.transportCall ("sftp.open_w") (joinPath s.remote_path sel),
             Event.infoBox ("Save Success") (("Saved changes to ") ++ sel)])
    ∧ (k < (utf8Encode s.editor_text).length →
        (save_file fs s sel k).2.2
          = [Event.transportCall ("sftp.open_w") (joinPath s.remote_path sel),
             Event.criticalBox ("Error")
               (("Error saving file: ") ++ joinPath s.remote_path sel)])
    ∧ ∀ op q, Event.transportCall op q ∈ (save_file fs s sel k).2.2 →
        q = joinPath s.remote_path sel := by
  by_cases hk : (utf8Encode s.editor_text).length ≤ k
  · have hsave : save_file fs s sel k
        = (fs.writeFile s.remote_path sel ((utf8Encode s.editor_text).take k), s,
           [Event.transportCall ("sftp.open_w") (joinPath s.remote_path sel),
            Event.infoBox ("Save Success") (("Saved changes to ") ++ sel)]) := by
      simp [save_file, hssh, hsftp, hk]
    refine ⟨?_, fun _ => ?_, fun hlt => absurd hk (by omega), ?_⟩
    · rw [hsave]
      exact writeFile_content fs s.remote_path sel _
    · rw [hsave]
    · intro op q hmem
      rw [hsave] at hmem
      simp at hmem
      exact hmem.2
  · have hsave : save_file fs s sel k
        = (fs.writeFile s.remote_path sel ((utf8Encode s.editor_text).take k), s,
           [Event.transportCall ("sftp.open_w") (joinPath s.remote_path sel),
            Event.criticalBox ("Error")
              (("Error saving file: ") ++ joinPath s.remote_path sel)]) := by
      simp [save_file, hssh, hsftp, hk]
    refine ⟨?_, fun hle => absurd hle hk, fun _ => ?_, ?_⟩
    · rw [hsave]
      exact writeFile_content fs s.remote_path sel _
    · rw [hsave]
    · intro op q hmem
      rw [hsave] at hmem
      simp at hmem
      exact hmem.2

/-- Witness for the amended C3 at a concrete failing save. -/
theorem save_file_truncating_direct_write_witness :
    ((save_file fsDoc sAB ("doc.txt") 1).1).content (joinPath sAB.remote_path ("doc.txt"))
        = some ((utf8Encode sAB.editor_text).take 1)
    ∧ ((utf8Encode sAB.editor_text).length ≤ 1 →
        (save_file fsDoc sAB ("doc.txt") 1).2.2
          = [Event.transportCall ("sftp.open_w") (joinPath sAB.remote_path ("doc.txt")),
             Event.infoBox ("Save Success") (("Saved changes to ") ++ ("doc.txt"))])
    ∧ (1 < (utf8Encode sAB.editor_text).length →
        (save_file fsDoc sAB ("doc.txt") 1).2.2
          = [Event.transportCall ("sftp.open_w") (joinPath sAB.remote_path ("doc.txt")),
             Event.criticalBox ("Error")
               (("Error saving file: ") ++ joinPath sAB.remote_path ("doc.txt"))])
    ∧ ∀ op q, Event.transportCall op q ∈ (save_file fsDoc sAB ("doc.txt") 1).2.2 →
        q = joinPath sAB.remote_path ("doc.txt") :=
  save_file_truncating_direct_write fsDoc sAB ("doc.txt") 1 0 0 rfl rfl

/-- Helper: open_file on a connected state whose remote file exists and
decodes succeeds, filling the editor with the decoded code points. -/
theorem open_file_success_general (fs : RemoteFS) (s : AppState) (sel : String)
    (h1 h2 : Nat) (bytes cps : List Nat)
    (hssh : s.ssh = some h1) (hsftp : s.sftp = some h2)
    (hcon : fs.content (joinPath s.remote_path sel) = some bytes)
    (hdec : utf8Decode bytes = some cps) :
    open_file fs s sel
      = ({ s with
            editor_text := cps,
            editor_visible := true,
            status := ("Opened file: ") ++ sel },
         [Event.transportCall ("sftp.open_r") (joinPath s.remote_path sel),
          Event.statusMsg (("Opened file: ") ++ sel)]) := by
  simp [open_file, hssh, hsftp, hcon, hdec]

/-- C4 counterexample: open_file on a concrete 1 MiB file succeeds, buffers
the whole content into the editor and reports no error of any kind — there
is no configured size ceiling and no TooLargeError in the code. -/
theorem open_file_no_size_ceiling :
    open_file fsBig appConnected ("bigfile")
      = ({ appConnected with
            editor_text := bigContent,
            editor_visible := true,
            status := ("Opened file: ") ++ ("bigfile") },
         [Event.transportCall ("sftp.open_r")
            (joinPath appConnected.remote_path ("bigfile")),
          Event.statusMsg (("Opened file: ") ++ ("bigfile"))])
    ∧ bigContent.length = 1048576 := by
  have hcon : fsBig.content (joinPath appConnected.remote_path ("bigfile"))
      = some bigContent := by
    simp [appConnected, fsBig, RemoteFS.content, List.find?_cons, REntry.path]
  have hdec : utf8Decode bigContent = some bigContent := by
    rw [bigContent]
    exact utf8Decode_replicate_65 1048576
  have h := open_file_success_general fsBig appConnected ("bigfile") 0 0
    bigContent bigContent rfl rfl hcon hdec
  refine ⟨h, ?_⟩
  rw [bigContent]
  exact List.length_replicate 1048576 65

/-- C4 amended: open_file on a remote file whose bytes are not valid UTF-8
fails with the caught decode error — reported in a critical box, editor
untouched — but there is no size ceiling: a file of every size is read and
buffered in full. -/
theorem open_file_decode_error_and_unbounded :
    (∀ fs s sel hh hs bytes,
       s.ssh = some hh → s.sftp = some hs →
       fs.content (joinPath s.remote_path sel) = some bytes →
       utf8Decode bytes = none →
       open_file fs s sel
         = (s, [Event.transportCall ("sftp.open_r") (joinPath s.remote_path sel),
                Event.criticalBox ("Error")
                  ("Error opening file: UnicodeDecodeError")]))
    ∧ (∀ nsize,
        open_file ⟨[⟨("."), ("f"), 33188, List.replicate nsize 65⟩]⟩
            appConnected ("f")
          = ({ appConnected with
                editor_text := List.replicate nsize 65,
                editor_visible := true,
                status := ("Opened file: ") ++ ("f") },
             [Event.transportCall ("sftp.open_r") (joinPath (".") ("f")),
              Event.statusMsg (("Opened file: ") ++ ("f"))])) := by
  constructor
  · intro fs s sel hh hs bytes h1 h2 h3 h4
    simp [open_file, h1, h2, h3, h4]
  · intro nsize
    have hc : (⟨[⟨("."), ("f"), 33188, List.replicate nsize 65⟩]⟩ : RemoteFS).content
          (joinPath (".") ("f"))
        = some (List.replicate nsize 65) := by
      simp [RemoteFS.content, List.find?_cons, REntry.path]
    simp [open_file, appConnected, hc, utf8Decode_replicate_65]

/-- Witness for the amended C4: a concrete non-UTF-8 file fails with the
decode error, and a concrete three-byte file is buffered in full. -/
theorem open_file_decode_error_and_unbounded_witness :
    open_file fsBin appConnected ("bin.dat")
      = (appConnected,
         [Event.transportCall ("sftp.open_r")
            (joinPath appConnected.remote_path ("bin.dat")),
          Event.criticalBox ("Error") ("Error opening file: UnicodeDecodeError")])
    ∧ open_file ⟨[⟨("."), ("f"), 33188, List.replicate 3 65⟩]⟩ appConnected ("f")
        = ({ appConnected with
              editor_text := List.replicate 3 65,
              editor_visible := true,
              status := ("Opened file: ") ++ ("f") },
           [Event.transportCall ("sftp.open_r") (joinPath (".") ("f")),
            Event.statusMsg (("Opened file: ") ++ ("f"))]) :=
  ⟨open_file_decode_error_and_unbounded.1 fsBin appConnected ("bin.dat") 0 0 [255]
     rfl rfl (by decide) (by decide),
   open_file_decode_error_and_unbounded.2 3⟩

/-- C1 counterexample: two successive successful connects from the initial
state leave two transports live at once — the prior transport is never
closed — contradicting the claim that the prior session is torn down and
no two live transports ever coexist. -/
theorem connect_twice_two_live_transports :
    ((connect_ssh fsNotes ("h") ("u") ("pw") connOnce).1).live = [1, 0]
    ∧ (0 : Nat) ∈ ((connect_ssh fsNotes ("h") ("u") ("pw") connOnce).1).live
    ∧ ¬ (((connect_ssh fsNotes ("h") ("u") ("pw") connOnce).1).live.length ≤ 1) := by
  decide

/-- C1 amended: invoking connect while a session is already Connected does
not tear the prior transport down — the handles are simply overwritten with
a fresh transport, the prior transport stays live, and two distinct live
transports coexist; the application merely stops referencing the old
one. -/
theorem connect_does_not_close_prior_transport
    (fs : RemoteFS) (c : ConnState) (host user pw : String) (t : Nat)
    (hssh : c.app.ssh = some t) (hlive : t ∈ c.live) (hlt : t < c.nextId)
    (hh : (host == ("")) = false) (hu : (user == ("")) = false)
    (hp : (pw == ("")) = false) :
    ((connect_ssh fs host user pw c).1).app.ssh = some c.nextId
    ∧ t ∈ ((connect_ssh fs host user pw c).1).live
    ∧ c.nextId ∈ ((connect_ssh fs host user pw c).1).live
    ∧ t ≠ c.nextId := by
  have hconn : (connect_ssh fs host user pw c).1
      = { app := (load_remote_directory fs (connect_ssh_thread c).app).1,
          live := c.nextId :: c.live, nextId := c.nextId + 1 } := by
    simp [connect_ssh, hh, hu, hp, connect_ssh_thread]
  refine ⟨?_, ?_, ?_, by omega⟩
  · rw [hconn]
    have hp2 := load_preserves_handles fs (connect_ssh_thread c).app
    show (load_remote_directory fs (connect_ssh_thread c).app).1.ssh = some c.nextId
    rw [hp2.1]
    rfl
  · rw [hconn]
    exact List.mem_cons_of_mem _ hlive
  · rw [hconn]
    exact List.mem_cons_self _ _

/-- Witness for the amended C1: a second connect from the concrete
state reached by one successful connect. -/
theorem connect_does_not_close_prior_transport_witness :
    ((connect_ssh fsNotes ("h") ("u") ("pw") connOnce).1).app.ssh
        = some connOnce.nextId
    ∧ 0 ∈ ((connect_ssh fsNotes ("h") ("u") ("pw") connOnce).1).live
    ∧ connOnce.nextId ∈ ((connect_ssh fsNotes ("h") ("u") ("pw") connOnce).1).live
    ∧ 0 ≠ connOnce.nextId :=
  connect_does_not_close_prior_transport fsNotes connOnce ("h") ("u") ("pw") 0
    (by decide) (by decide) (by decide) (by decide) (by decide) (by decide)

end DataDrift
